import Mathlib

/-!
Shallow embedding of the medobot query front-end (src/Hello.py).

The program is a set of stateless lookup functions over pandas DataFrames
loaded from CSV files.  We embed each DataFrame as an optional list of rows
(`none` models a table that failed to load and is absent from the
`dataframes` dictionary), cells that may be NaN / non-string as
`Option String`, and each `display_*` function as a function returning the
list of strings it writes via `st.write`, in order.

Python string primitives (`str.strip`, `str.lower`, `str.capitalize`,
substring containment, `str.split`) are embedded below on Lean strings;
floats produced by `(count / len) * 100` are modelled as exact rationals,
and the `:.2f` format as decimal rounding of that rational (the values
reachable in the claims are exactly representable, where the two agree).
-/

/-- ASCII whitespace stripped by Python `str.strip()`. -/
def isPyWhitespace (c : Char) : Bool :=
  c = ' ' || c = '\t' || c = '\n' || c = '\r' || c = '\x0b' || c = '\x0c'

/-- `str.strip()` on the character list: drop leading and trailing whitespace. -/
def pyStripData (l : List Char) : List Char :=
  ((l.dropWhile isPyWhitespace).reverse.dropWhile isPyWhitespace).reverse

/-- Python `s.strip()`. -/
def pyStrip (s : String) : String := String.mk (pyStripData s.data)

/-- Python `s.lower()` (ASCII case mapping). -/
def pyLower (s : String) : String := String.mk (s.data.map Char.toLower)

/-- Python `s.capitalize()`: first character uppercased, the rest lowercased. -/
def pyCapitalize (s : String) : String :=
  match s.data with
  | [] => ""
  | c :: cs => String.mk (Char.toUpper c :: cs.map Char.toLower)

/-- Substring containment, as pandas `Series.str.contains` computes it for
patterns free of regex metacharacters (the source passes the raw user string
as the pattern, so pandas actually compiles it as a regular expression). -/
def dataContains : List Char → List Char → Bool
  | [], pat => pat.isPrefixOf []
  | c :: t, pat => pat.isPrefixOf (c :: t) || dataContains t pat

/-- Containment of `pat` as a contiguous substring of `hay`. -/
def pyContains (hay pat : String) : Bool := dataContains hay.data pat.data

/-- `clean_symptom` from src/Hello.py lines 52-56: a string cell is stripped
then lowercased; any non-string value (NaN of a missing cell, a number)
yields the empty string. -/
def clean_symptom : Option String → String
  | some s => pyLower (pyStrip s)
  | none => ""

/-- A row of `dataset.csv`: the `Disease` column followed by the
variable-width symptom-slot columns, each possibly NaN.  Iterating a pandas
row (as `match_symptoms` does with `for symptom in row`) yields the cells in
column order, Disease first. -/
structure DataRow where
  disease : Option String
  symptoms : List (Option String)
deriving DecidableEq

/-- A row of `symptom_description.csv`. -/
structure DescRow where
  disease : Option String
  description : String
deriving DecidableEq

/-- A row of `symptom_precaution.csv`: four precaution slots, possibly NaN. -/
structure PrecRow where
  disease : Option String
  p1 : Option String
  p2 : Option String
  p3 : Option String
  p4 : Option String
deriving DecidableEq

/-- A row of `Symptom-severity.csv`. -/
structure SevRow where
  symptom : Option String
  weight : Int
deriving DecidableEq

/-- A row of `medquad.csv`. -/
structure MedRow where
  question : String
  answer : String
deriving DecidableEq

/-- The cells of a dataset row in pandas iteration order: Disease first,
then the symptom slots (src/Hello.py line 119 iterates the whole row). -/
def rowCells (r : DataRow) : List (Option String) := r.disease :: r.symptoms

/-- Python `s.split(",")` on character lists: `acc` holds the current field
reversed.  Splitting the empty string yields `[""]`, as in Python. -/
def splitCommaAux : List Char → List Char → List (List Char)
  | [], acc => [acc.reverse]
  | c :: t, acc => if c = ',' then acc.reverse :: splitCommaAux t [] else splitCommaAux t (c :: acc)

/-- Python `s.split(",")`. -/
def pySplitComma (s : String) : List String := (splitCommaAux s.data []).map String.mk

/-- `user_symptoms_list` of src/Hello.py line 115: split the raw input on
commas and clean every token. -/
def user_tokens (input : String) : List String :=
  (pySplitComma input).map (fun t => clean_symptom (some t))

/-- The per-row predicate of src/Hello.py lines 118-119:
`any(clean_symptom(symptom) in user_symptoms_list for symptom in row)`. -/
def row_matches (toks : List String) (r : DataRow) : Bool :=
  (rowCells r).any (fun c => toks.contains (clean_symptom c))

/-- The rows selected by the boolean mask of src/Hello.py lines 118-119. -/
def matched_rows (input : String) (rows : List DataRow) : List DataRow :=
  rows.filter (row_matches (user_tokens input))

/-- Distinct elements of a list in first-occurrence order, skipping those in
`seen`: the iteration order of a Python `Counter` (insertion ordered dict). -/
def firstSeenAux (seen : List (Option String)) : List (Option String) → List (Option String)
  | [] => []
  | a :: l => if seen.contains a then firstSeenAux seen l else a :: firstSeenAux (a :: seen) l

/-- Distinct elements of a list in first-occurrence order. -/
def firstSeen (l : List (Option String)) : List (Option String) := firstSeenAux [] l

/-- Occurrences of the value `k` in the list, as a Python `Counter` counts
them. -/
def countOcc (ds : List (Option String)) (k : Option String) : Nat :=
  (ds.filter (fun b => b == k)).length

/-- `Counter(matched_diseases[\x27Disease\x27])` as an association list in
insertion order. -/
def disease_counts (ds : List (Option String)) : List (Option String × Nat) :=
  (firstSeen ds).map (fun k => (k, countOcc ds k))

/-- The ranking order of `Counter.most_common()`: larger count first. -/
def countGE (p q : Option String × Nat) : Prop := q.2 ≤ p.2

instance : DecidableRel countGE := fun p q => Nat.decLe q.2 p.2

instance : IsTotal (Option String × Nat) countGE := ⟨fun a b => Nat.le_total b.2 a.2⟩

instance : IsTrans (Option String × Nat) countGE := ⟨fun _ _ _ h1 h2 => Nat.le_trans h2 h1⟩

/-- `Counter(...).most_common()`: per-disease counts ranked by count
descending; `sorted(items, key=count, reverse=True)` is a stable insertion
of each item before the first item of smaller-or-equal count, which is
exactly `List.insertionSort` with the order `countGE`. -/
def most_common (ds : List (Option String)) : List (Option String × Nat) :=
  List.insertionSort countGE (disease_counts ds)

/-- How an f-string renders a `Disease` cell: NaN prints as `nan`. -/
def showCell : Option String → String
  | some s => s
  | none => "nan"

/-- The exact share `(count / total) * 100` of src/Hello.py line 124, as a
rational. -/
def pctQ (count total : Nat) : ℚ := (count : ℚ) / (total : ℚ) * 100

/-- Two-decimal rendering of `(count / total) * 100` (Python `:.2f`,
round-half-even); computed in exact integer arithmetic. -/
def formatPct (count total : Nat) : String :=
  let num := count * 10000
  let q := num / total
  let r := num % total
  let scaled :=
    if 2 * r < total then q
    else if 2 * r > total then q + 1
    else if q % 2 = 0 then q else q + 1
  let d := scaled % 100
  toString (scaled / 100) ++ "." ++ (if d < 10 then "0" else "") ++ toString d

/-- `match_symptoms` from src/Hello.py lines 114-129, returning the sequence
of `st.write` outputs. -/
def match_symptoms (input : String) (tbl : Option (List DataRow)) : List String :=
  match tbl with
  | none => ["Dataset not loaded."]
  | some rows =>
    let matched := matched_rows input rows
    match matched with
    | [] => ["No matching diseases found for the provided symptoms."]
    | _ =>
      "Potential diseases associated with your symptoms:" ::
        (most_common (matched.map (·.disease))).map
          (fun p => "- " ++ showCell p.1 ++ " (" ++ formatPct p.2 matched.length ++ "%)")

/-- The row mask of `display_disease_description` (src/Hello.py line 103):
`df[\x27Disease\x27].str.lower() == disease_name.lower()`.  Both sides are
lowercased, neither is stripped; a NaN cell compares unequal. -/
def descMatch (name : String) (r : DescRow) : Bool :=
  match r.disease with
  | some d => pyLower d == pyLower name
  | none => false

/-- `display_disease_description` from src/Hello.py lines 100-111. -/
def display_disease_description (name : String) (tbl : Option (List DescRow)) :
    List String :=
  match tbl with
  | none => ["Symptom description dataset not loaded."]
  | some rows =>
    match rows.filter (descMatch name) with
    | [] => ["Disease \x27" ++ name ++ "\x27 not found in the dataset."]
    | r :: _ =>
      ["Disease Description for \x27" ++ pyCapitalize name ++ "\x27:", r.description]

/-- The row mask of `display_precautions` (src/Hello.py line 135). -/
def precMatch (name : String) (r : PrecRow) : Bool :=
  match r.disease with
  | some d => pyLower d == pyLower name
  | none => false

/-- `display_precautions` from src/Hello.py lines 132-148: the four slots of
the first matching row, keeping only string cells, in slot order. -/
def display_precautions (name : String) (tbl : Option (List PrecRow)) :
    List String :=
  match tbl with
  | none => ["Symptom precaution dataset not loaded."]
  | some rows =>
    match rows.filter (precMatch name) with
    | [] => ["Disease \x27" ++ name ++ "\x27 not found in the dataset."]
    | r :: _ =>
      match [r.p1, r.p2, r.p3, r.p4].filterMap id with
      | [] => ["No precautions listed for \x27" ++ name ++ "\x27 in the dataset."]
      | ps => ("Precautions for " ++ pyCapitalize name ++ ":") ::
        ps.map (fun p => "- " ++ p)

/-- The row mask of `display_symptom_severity` (src/Hello.py line 154). -/
def sevMatch (name : String) (r : SevRow) : Bool :=
  match r.symptom with
  | some s => pyLower s == pyLower name
  | none => false

/-- `display_symptom_severity` from src/Hello.py lines 151-161: the weight of
the first matching row. -/
def display_symptom_severity (name : String) (tbl : Option (List SevRow)) :
    List String :=
  match tbl with
  | none => ["Symptom severity dataset not loaded."]
  | some rows =>
    match rows.filter (sevMatch name) with
    | [] => ["Symptom \x27" ++ name ++ "\x27 not found in the dataset."]
    | r :: _ =>
      ["Severity of " ++ pyCapitalize name ++ ": " ++ toString r.weight]

/-- The medquad row mask shared by causes / diagnosis / research
(src/Hello.py lines 167-170, 188-191, 209-212): the stored question is
lowercased, the user-entered name is used raw, and the topic keyword is a
lowercase literal.  As with `pyContains`, the source hands the raw name to
the regex engine of pandas `str.contains`, so this mask is faithful only
for queries free of regex metacharacters; for other queries the program
matches regex-wise or raises re.error, which this embedding does not model
(theorems quantifying over all query strings must not rely on this mask). -/
def medMask (name kw : String) (r : MedRow) : Bool :=
  pyContains (pyLower r.question) name && pyContains (pyLower r.question) kw

/-- Rows of the medquad table selected by the mask. -/
def medquad_matches (name kw : String) (rows : List MedRow) : List MedRow :=
  rows.filter (medMask name kw)

/-- `display_disease_causes` from src/Hello.py lines 164-182. -/
def display_disease_causes (name : String) (tbl : Option (List MedRow)) :
    List String :=
  match tbl with
  | none => ["Medquad dataset not loaded."]
  | some rows =>
    match medquad_matches name "cause" rows with
    | [] => ["No causes found for \x27" ++ name ++ "\x27 in the \x27medquad\x27 dataset."]
    | ms =>
      ("Causes of " ++ pyCapitalize name ++ " (from \x27medquad\x27 dataset):") ::
        ms.map (fun r => "- " ++ r.answer)

/-- `display_disease_diagnosis` from src/Hello.py lines 185-203. -/
def display_disease_diagnosis (name : String) (tbl : Option (List MedRow)) :
    List String :=
  match tbl with
  | none => ["Medquad dataset not loaded."]
  | some rows =>
    match medquad_matches name "diagnose" rows with
    | [] => ["No diagnosis found for \x27" ++ name ++ "\x27 in the \x27medquad\x27 dataset."]
    | ms =>
      ("Diagnosis of " ++ pyCapitalize name ++ " (from \x27medquad\x27 dataset):") ::
        ms.map (fun r => "- " ++ r.answer)

/-- `display_disease_research` from src/Hello.py lines 206-224. -/
def display_disease_research (name : String) (tbl : Option (List MedRow)) :
    List String :=
  match tbl with
  | none => ["Medquad dataset not loaded."]
  | some rows =>
    match medquad_matches name "research" rows with
    | [] => ["No research information found for \x27" ++ name ++
        "\x27 in the \x27medquad\x27 dataset."]
    | ms =>
      ("Research about " ++ pyCapitalize name ++ " (from \x27medquad\x27 dataset):") ::
        ms.map (fun r => "- " ++ r.answer)


/-! ### Helper lemmas -/

theorem firstSeenAux_cons (seen : List (Option String)) (b : Option String)
    (t : List (Option String)) :
    firstSeenAux seen (b :: t) =
      if b ∈ seen then firstSeenAux seen t else b :: firstSeenAux (b :: seen) t := by
  rw [firstSeenAux]
  by_cases hb : b ∈ seen
  · rw [if_pos (List.elem_iff.mpr hb), if_pos hb]
  · rw [if_neg (fun hc => hb (List.elem_iff.mp hc)), if_neg hb]

theorem mem_firstSeenAux (a : Option String) :
    ∀ (l seen : List (Option String)),
      a ∈ firstSeenAux seen l ↔ a ∈ l ∧ a ∉ seen := by
  intro l
  induction l with
  | nil => intro seen; simp [firstSeenAux]
  | cons b t ih =>
    intro seen
    rw [firstSeenAux_cons]
    by_cases hb : b ∈ seen
    · rw [if_pos hb, ih]
      constructor
      · rintro ⟨h1, h2⟩
        exact ⟨List.mem_cons_of_mem _ h1, h2⟩
      · rintro ⟨h1, h2⟩
        rcases List.mem_cons.mp h1 with h1 | h1
        · exact absurd (h1 ▸ hb) h2
        · exact ⟨h1, h2⟩
    · rw [if_neg hb]
      constructor
      · intro h
        rcases List.mem_cons.mp h with h | h
        · exact h ▸ ⟨List.mem_cons_self .., h ▸ hb⟩
        · obtain ⟨h1, h2⟩ := (ih _).mp h
          exact ⟨List.mem_cons_of_mem _ h1, fun hc => h2 (List.mem_cons_of_mem _ hc)⟩
      · rintro ⟨h1, h2⟩
        rcases List.mem_cons.mp h1 with h1 | h1
        · exact h1 ▸ List.mem_cons_self ..
        · by_cases hab : a = b
          · exact hab ▸ List.mem_cons_self ..
          · exact List.mem_cons_of_mem _
              ((ih _).mpr ⟨h1, fun hc => (List.mem_cons.mp hc).elim hab h2⟩)

theorem nodup_firstSeenAux :
    ∀ (l seen : List (Option String)), (firstSeenAux seen l).Nodup := by
  intro l
  induction l with
  | nil => intro seen; simp [firstSeenAux]
  | cons b t ih =>
    intro seen
    rw [firstSeenAux_cons]
    by_cases hb : b ∈ seen
    · rw [if_pos hb]; exact ih seen
    · rw [if_neg hb]
      refine List.nodup_cons.mpr ⟨?_, ih (b :: seen)⟩
      intro hmem
      exact ((mem_firstSeenAux b t (b :: seen)).mp hmem).2 (List.mem_cons_self ..)

theorem mem_firstSeen (a : Option String) (l : List (Option String)) :
    a ∈ firstSeen l ↔ a ∈ l := by
  rw [firstSeen, mem_firstSeenAux]
  simp

theorem nodup_firstSeen (l : List (Option String)) : (firstSeen l).Nodup :=
  nodup_firstSeenAux l []

theorem length_filter_split (p : Option String → Bool) (ds : List (Option String)) :
    (ds.filter p).length + (ds.filter (fun b => !p b)).length = ds.length := by
  induction ds with
  | nil => rfl
  | cons a t ih =>
    cases h : p a <;> simp [List.filter_cons, h] <;> omega

theorem sum_countOcc :
    ∀ (keys ds : List (Option String)), keys.Nodup → (∀ x ∈ ds, x ∈ keys) →
      (keys.map (fun k => countOcc ds k)).sum = ds.length := by
  intro keys
  induction keys with
  | nil =>
    intro ds _ hcov
    cases ds with
    | nil => rfl
    | cons a t => exact absurd (hcov a (List.mem_cons_self ..)) (List.not_mem_nil a)
  | cons k rest ih =>
    intro ds hnd hcov
    obtain ⟨hk, hrest⟩ := List.nodup_cons.mp hnd
    have hcov' : ∀ x ∈ ds.filter (fun b => !(b == k)), x ∈ rest := by
      intro x hx
      obtain ⟨hx1, hx2⟩ := List.mem_filter.mp hx
      rcases List.mem_cons.mp (hcov x hx1) with h | h
      · simp [h] at hx2
      · exact h
    have hsame : ∀ k2 ∈ rest, countOcc ds k2 = countOcc (ds.filter (fun b => !(b == k))) k2 := by
      intro k2 hk2
      have hne : k2 ≠ k := fun he => hk (he ▸ hk2)
      rw [countOcc, countOcc, List.filter_filter]
      congr 1
      apply List.filter_congr
      intro b _
      cases hb : b == k2
      · simp
      · have : b = k2 := by simpa using hb
        subst this
        simp [hne]
    rw [List.map_cons, List.sum_cons,
      List.map_congr_left hsame, ih (ds.filter (fun b => !(b == k))) hrest hcov']
    exact length_filter_split (fun b => b == k) ds

theorem sum_map_mul_const (l : List (Option String)) (f : Option String → ℚ) (r : ℚ) :
    (l.map (fun a => f a * r)).sum = (l.map f).sum * r := by
  induction l with
  | nil => simp
  | cons a t ih => simp [ih, add_mul]

theorem pctQ_eq (c n : Nat) : pctQ c n = (c : ℚ) * (100 / (n : ℚ)) := by
  rw [pctQ]
  ring

theorem disease_counts_pct_sum (ds : List (Option String)) (h : ds ≠ []) :
    ((disease_counts ds).map (fun p => pctQ p.2 ds.length)).sum = 100 := by
  have hlen : (ds.length : ℚ) ≠ 0 := by
    have : 0 < ds.length := List.length_pos.mpr h
    simp [Nat.pos_iff_ne_zero.mp this]
  rw [disease_counts, List.map_map]
  have h1 : ((fun p : Option String × Nat => pctQ p.2 ds.length) ∘
      fun k => (k, countOcc ds k)) = fun k => (countOcc ds k : ℚ) * (100 / (ds.length : ℚ)) := by
    funext k
    simp [Function.comp, pctQ_eq]
  rw [h1, sum_map_mul_const]
  have h2 : ((firstSeen ds).map (fun k => (countOcc ds k : ℚ))).sum = (ds.length : ℚ) := by
    have h3 := sum_countOcc (firstSeen ds) ds (nodup_firstSeen ds)
      (fun x hx => (mem_firstSeen x ds).mpr hx)
    calc ((firstSeen ds).map (fun k => (countOcc ds k : ℚ))).sum
        = ((((firstSeen ds).map (fun k => countOcc ds k)).map (fun n : Nat => (n : ℚ)))).sum := by
          rw [List.map_map]; rfl
      _ = (((firstSeen ds).map (fun k => countOcc ds k)).sum : ℚ) := (Nat.cast_list_sum _).symm
      _ = (ds.length : ℚ) := by rw [h3]
  rw [h2]
  field_simp

theorem pyStripData_spec (l : List Char) :
    ∃ pre mid post : List Char,
      l = pre ++ mid ++ post ∧
      (∀ c ∈ pre, isPyWhitespace c = true) ∧
      (∀ c ∈ post, isPyWhitespace c = true) ∧
      pyStripData l = mid ∧
      (∀ c, mid.head? = some c → isPyWhitespace c = false) ∧
      (∀ c, mid.getLast? = some c → isPyWhitespace c = false) := by
  have hsplit : (l.dropWhile isPyWhitespace).reverse.takeWhile isPyWhitespace ++
      (l.dropWhile isPyWhitespace).reverse.dropWhile isPyWhitespace =
      (l.dropWhile isPyWhitespace).reverse := List.takeWhile_append_dropWhile ..
  have hmp : pyStripData l ++
      ((l.dropWhile isPyWhitespace).reverse.takeWhile isPyWhitespace).reverse =
      l.dropWhile isPyWhitespace := by
    simp only [pyStripData]
    rw [← List.reverse_append, hsplit, List.reverse_reverse]
  refine ⟨l.takeWhile isPyWhitespace, pyStripData l,
    ((l.dropWhile isPyWhitespace).reverse.takeWhile isPyWhitespace).reverse,
    ?_, ?_, ?_, rfl, ?_, ?_⟩
  · rw [List.append_assoc, hmp, List.takeWhile_append_dropWhile]
  · intro c hc
    exact List.mem_takeWhile_imp hc
  · intro c hc
    exact List.mem_takeWhile_imp (List.mem_reverse.mp hc)
  · intro c hc
    have hhead : (l.dropWhile isPyWhitespace).head? = some c := by
      rw [← hmp]
      cases hm : pyStripData l with
      | nil => rw [hm] at hc; simp at hc
      | cons m ms =>
        rw [hm] at hc
        simp only [List.head?_cons, Option.some.injEq] at hc
        rw [← hc]
        simp
    have hh := List.head?_dropWhile_not isPyWhitespace l
    rw [hhead] at hh
    exact hh
  · intro c hc
    have hc2 : (((l.dropWhile isPyWhitespace).reverse.dropWhile
        isPyWhitespace).reverse).getLast? = some c := hc
    have h2 : ((l.dropWhile isPyWhitespace).reverse.dropWhile isPyWhitespace).head? =
        some c := (List.getLast?_reverse _).symm.trans hc2
    have hh := List.head?_dropWhile_not isPyWhitespace (l.dropWhile isPyWhitespace).reverse
    rw [h2] at hh
    exact hh

/-! ### Claims -/

/-- C1: the claim says that for every input whose comma-split tokens all
normalize to the empty string, `match_symptoms` reports the NotFound outcome
whenever the dataset table is loaded.  The code violates this: the empty
input yields the single token `""`, a missing (NaN) symptom slot also
normalizes to `""`, so every row with a missing cell matches and is reported
with a percentage instead of the NotFound message. -/
theorem medobot_C1_empty_input_matches :
    user_tokens "" = [""] ∧
    match_symptoms "" (some [⟨some "Flu", [none]⟩]) =
      ["Potential diseases associated with your symptoms:", "- Flu (100.00%)"] ∧
    match_symptoms "" (some [⟨some "Flu", [none]⟩]) ≠
      ["No matching diseases found for the provided symptoms."] := by
  refine ⟨rfl, by decide, by decide⟩

/-- C3: the claim says a missing (non-string) symptom slot never causes a
row to match.  The code violates this: `clean_symptom` maps a missing cell
to `""`, and any input with an empty comma-split token (for example a
trailing comma) puts `""` into the query token list, so the missing slot
alone makes the row match. -/
theorem medobot_C3_missing_slot_matches :
    row_matches (user_tokens "cough,") ⟨some "Flu", [none]⟩ = true ∧
    row_matches (user_tokens "cough,") ⟨some "Flu", []⟩ = false ∧
    match_symptoms "cough," (some [⟨some "Flu", [none]⟩]) =
      ["Potential diseases associated with your symptoms:", "- Flu (100.00%)"] := by
  refine ⟨by decide, by decide, by decide⟩

/-- C2 counterexample: the claim says every comparison normalizes (trims and
lowercases) both sides.  In the code, the exact-match lookup lowercases but
does not trim (the query `" flu"` misses the stored `"Flu"` although their
normalized forms agree), and the substring lookup compares the lowercased
question against the raw query (`"Flu"` is not found inside the lowercased
question even though normalized containment holds). -/
theorem medobot_C2_counterexample :
    clean_symptom (some " flu") = clean_symptom (some "Flu") ∧
    display_disease_description " flu" (some [⟨some "Flu", "d"⟩]) =
      ["Disease \x27 flu\x27 not found in the dataset."] ∧
    pyContains (pyLower "What causes Flu?") (clean_symptom (some "Flu")) = true ∧
    display_disease_causes "Flu" (some [⟨"What causes Flu?", "a"⟩]) =
      ["No causes found for \x27Flu\x27 in the \x27medquad\x27 dataset."] := by
  refine ⟨by decide, by decide, by decide, by decide⟩

/-- C2 (amended): the exact-match lookups lowercase both the stored key and
the query but trim neither, so they are invariant under case changes of the
query; the medquad substring lookups lowercase only the stored question text
and compare it against the raw query string, so they are invariant under
case changes of the stored question (but not of the query). -/
theorem medobot_C2_amended :
    ∀ name name2 : String, pyLower name = pyLower name2 →
      (∀ rows : List DescRow, rows.filter (descMatch name) = rows.filter (descMatch name2)) ∧
      (∀ rows : List PrecRow, rows.filter (precMatch name) = rows.filter (precMatch name2)) ∧
      (∀ rows : List SevRow, rows.filter (sevMatch name) = rows.filter (sevMatch name2)) ∧
      (∀ kw q q2 ans : String, pyLower q = pyLower q2 →
        (medquad_matches name kw [⟨q, ans⟩]).length =
          (medquad_matches name kw [⟨q2, ans⟩]).length) := by
  intro name name2 h
  refine ⟨?_, ?_, ?_, ?_⟩
  · intro rows
    apply List.filter_congr
    intro r _
    rw [descMatch, descMatch]
    cases r.disease with
    | none => rfl
    | some d => rw [h]
  · intro rows
    apply List.filter_congr
    intro r _
    rw [precMatch, precMatch]
    cases r.disease with
    | none => rfl
    | some d => rw [h]
  · intro rows
    apply List.filter_congr
    intro r _
    rw [sevMatch, sevMatch]
    cases r.symptom with
    | none => rfl
    | some d => rw [h]
  · intro kw q q2 ans hq
    have hmask : medMask name kw ⟨q, ans⟩ = medMask name kw ⟨q2, ans⟩ := by
      rw [medMask, medMask]
      simp only [hq]
    cases h2 : medMask name kw ⟨q2, ans⟩ <;>
      simp [medquad_matches, List.filter_cons, hmask, h2]

theorem medobot_C2_amended_witness :
    (([⟨some "Flu", "d"⟩] : List DescRow).filter (descMatch "FLU") =
      ([⟨some "Flu", "d"⟩] : List DescRow).filter (descMatch "flu")) ∧
    (medquad_matches "FLU" "cause" [⟨"What Causes Flu?", "a"⟩]).length =
      (medquad_matches "FLU" "cause" [⟨"what causes flu?", "a"⟩]).length := by
  have h := medobot_C2_amended "FLU" "flu" (by decide)
  exact ⟨h.1 _, h.2.2.2 "cause" "What Causes Flu?" "what causes flu?" "a" (by decide)⟩

/-- C5: `match_symptoms` reports matched diseases ranked by occurrence count
in descending order, each formatted as `count / total * 100` with two
decimal places; on the 3-row Common Cold / 1-row Flu dataset for the input
`cough` the output is `Common Cold (75.00%)` then `Flu (25.00%)`. -/
theorem medobot_C5_ranked_output :
    (∀ (input : String) (rows : List DataRow),
      List.Sorted countGE
        (most_common ((matched_rows input rows).map (fun r => r.disease)))) ∧
    match_symptoms "cough" (some [⟨some "Common Cold", [some "cough"]⟩,
        ⟨some "Common Cold", [some "cough"]⟩, ⟨some "Common Cold", [some "cough"]⟩,
        ⟨some "Flu", [some "cough"]⟩]) =
      ["Potential diseases associated with your symptoms:",
        "- Common Cold (75.00%)", "- Flu (25.00%)"] :=
  ⟨fun _ _ => List.sorted_insertionSort countGE _, by decide⟩

/-- C6: whenever at least one row matches, the reported per-disease shares
`count / total * 100` sum to exactly 100 in exact rational arithmetic. -/
theorem medobot_C6_percentages_sum :
    ∀ (input : String) (rows : List DataRow),
      matched_rows input rows ≠ [] →
      ((most_common ((matched_rows input rows).map (fun r => r.disease))).map
        (fun p => pctQ p.2 (matched_rows input rows).length)).sum = 100 := by
  intro input rows h
  have hlen : ((matched_rows input rows).map (fun r => r.disease)).length =
      (matched_rows input rows).length := List.length_map ..
  have hperm := (List.perm_insertionSort countGE
    (disease_counts ((matched_rows input rows).map (fun r => r.disease)))).map
    (fun p : Option String × Nat => pctQ p.2 (matched_rows input rows).length)
  rw [most_common, hperm.sum_eq, ← hlen]
  apply disease_counts_pct_sum
  intro hc
  exact h (List.map_eq_nil_iff.mp hc)

theorem medobot_C6_witness :
    ((most_common ((matched_rows "cough" [⟨some "Flu", [some "cough"]⟩]).map
        (fun r => r.disease))).map
      (fun p => pctQ p.2 (matched_rows "cough" [⟨some "Flu", [some "cough"]⟩]).length)).sum
      = 100 :=
  medobot_C6_percentages_sum "cough" [⟨some "Flu", [some "cough"]⟩] (by decide)

/-- C9: `clean_symptom` maps a missing or non-string cell to the empty
string, and maps every string to the string obtained by removing a leading
and a trailing all-whitespace block and lowercasing every remaining
character; it is a total function. -/
theorem medobot_C9_normalizer :
    clean_symptom none = "" ∧
    ∀ s : String, ∃ pre mid post : List Char,
      s.data = pre ++ mid ++ post ∧
      (∀ c ∈ pre, isPyWhitespace c = true) ∧
      (∀ c ∈ post, isPyWhitespace c = true) ∧
      (clean_symptom (some s)).data = mid.map Char.toLower ∧
      (∀ c, mid.head? = some c → isPyWhitespace c = false) ∧
      (∀ c, mid.getLast? = some c → isPyWhitespace c = false) := by
  refine ⟨rfl, fun s => ?_⟩
  obtain ⟨pre, mid, post, h1, h2, h3, h4, h5, h6⟩ := pyStripData_spec s.data
  exact ⟨pre, mid, post, h1, h2, h3, by rw [← h4]; rfl, h5, h6⟩

theorem medobot_C9_witness :
    ∃ pre mid post : List Char,
      ("  Flu ").data = pre ++ mid ++ post ∧
      (∀ c ∈ pre, isPyWhitespace c = true) ∧
      (∀ c ∈ post, isPyWhitespace c = true) ∧
      (clean_symptom (some "  Flu ")).data = mid.map Char.toLower ∧
      (∀ c, mid.head? = some c → isPyWhitespace c = false) ∧
      (∀ c, mid.getLast? = some c → isPyWhitespace c = false) :=
  medobot_C9_normalizer.2 "  Flu "

/-- C10 (implicit): the per-row match test of `match_symptoms` scans every
cell of the row including the Disease cell, so any query containing a token
whose normalized form equals a disease name makes every row of that disease
match, regardless of its symptom slots. -/
theorem medobot_C10_disease_cell_scanned :
    ∀ (input : String) (rows : List DataRow) (d : String) (r : DataRow),
      clean_symptom (some d) ∈ user_tokens input → r ∈ rows → r.disease = some d →
      r ∈ matched_rows input rows := by
  intro input rows d r htok hr hd
  apply List.mem_filter.mpr
  refine ⟨hr, ?_⟩
  rw [row_matches, rowCells]
  apply List.any_eq_true.mpr
  refine ⟨r.disease, List.mem_cons_self .., ?_⟩
  rw [hd]
  exact List.elem_iff.mpr htok

theorem medobot_C10_witness :
    (⟨some "Flu", [some "headache"]⟩ : DataRow) ∈
      matched_rows "flu" [⟨some "Flu", [some "headache"]⟩] :=
  medobot_C10_disease_cell_scanned "flu" [⟨some "Flu", [some "headache"]⟩] "Flu"
    ⟨some "Flu", [some "headache"]⟩ (by decide) (by decide) rfl


/-- C8: the exact-match lookups use the first matching row in table order:
with no match before it, row `r` determines the entire output, and any rows
after it (matching or not) never affect the result. -/
theorem medobot_C8_first_match_wins :
    ∀ name : String,
      (∀ (front back : List DescRow) (r : DescRow),
        (∀ x ∈ front, descMatch name x = false) → descMatch name r = true →
        display_disease_description name (some (front ++ r :: back)) =
          display_disease_description name (some [r])) ∧
      (∀ (front back : List PrecRow) (r : PrecRow),
        (∀ x ∈ front, precMatch name x = false) → precMatch name r = true →
        display_precautions name (some (front ++ r :: back)) =
          display_precautions name (some [r])) ∧
      (∀ (front back : List SevRow) (r : SevRow),
        (∀ x ∈ front, sevMatch name x = false) → sevMatch name r = true →
        display_symptom_severity name (some (front ++ r :: back)) =
          display_symptom_severity name (some [r])) := by
  intro name
  refine ⟨?_, ?_, ?_⟩
  · intro front back r h1 h2
    have hf : front.filter (descMatch name) = [] :=
      List.filter_eq_nil_iff.mpr (fun a ha => by simp [h1 a ha])
    simp [display_disease_description, List.filter_append, hf, List.filter_cons, h2]
  · intro front back r h1 h2
    have hf : front.filter (precMatch name) = [] :=
      List.filter_eq_nil_iff.mpr (fun a ha => by simp [h1 a ha])
    simp [display_precautions, List.filter_append, hf, List.filter_cons, h2]
  · intro front back r h1 h2
    have hf : front.filter (sevMatch name) = [] :=
      List.filter_eq_nil_iff.mpr (fun a ha => by simp [h1 a ha])
    simp [display_symptom_severity, List.filter_append, hf, List.filter_cons, h2]

theorem medobot_C8_witness :
    display_disease_description "flu"
        (some ([⟨some "malaria", "m"⟩] ++ ⟨some "Flu", "first"⟩ :: [⟨some "Flu", "second"⟩])) =
      display_disease_description "flu" (some [⟨some "Flu", "first"⟩]) ∧
    display_precautions "flu"
        (some ([⟨some "malaria", some "rest", none, none, none⟩] ++
          ⟨some "Flu", some "drink water", some "rest", none, none⟩ ::
            [⟨some "Flu", some "other", none, none, none⟩])) =
      display_precautions "flu"
        (some [⟨some "Flu", some "drink water", some "rest", none, none⟩]) ∧
    display_symptom_severity "cough"
        (some ([⟨some "itching", 1⟩] ++ ⟨some "Cough", 4⟩ :: [⟨some "Cough", 7⟩])) =
      display_symptom_severity "cough" (some [⟨some "Cough", 4⟩]) := by
  have h := medobot_C8_first_match_wins "flu"
  have h2 := medobot_C8_first_match_wins "cough"
  exact ⟨h.1 _ _ _ (by decide) (by decide), h.2.1 _ _ _ (by decide) (by decide),
    h2.2.2 _ _ _ (by decide) (by decide)⟩
